import Mathlib

/-!
# aligned_alloc_demo.c

A shallow embedding of `src/aligned_alloc_demo.c` (the whole program is `main`)
and the properties its specification states about it.

Modelling choices:

* `size_t`, `uint64_t` and pointers are 64 bits wide; their values are natural
  numbers and every operation that can wrap is reduced modulo `2^64`.
* The C library is the environment.  The two addresses returned by `malloc` and
  `aligned_alloc` are inputs of `main`; the `%p` conversion of `printf` is
  implementation-defined and is an input too (`fmtPtr`).
* `main` threads a `World` through its statements: the sequence of library
  calls made so far and the bytes written to standard output.
-/

namespace AlignedAllocDemo

/-! ## Machine arithmetic -/

/-- Number of values of `size_t`, `uint64_t` and of a pointer on the 64-bit target. -/
def WORD : Nat := 2 ^ 64

/-- The shift `a << k` on `uint64_t` (bits shifted past bit 63 are lost). -/
def shl64 (a k : Nat) : Nat := (a * 2 ^ k) % WORD

/-- The difference `a - b` on `size_t` (wraps modulo `2^64`). -/
def sub64 (a b : Nat) : Nat := (a % WORD + (WORD - b % WORD)) % WORD

/-- The conversion `(size_t)p` of a pointer `p`. -/
def size_t_of_ptr (p : Nat) : Nat := p % WORD

/-! ## The constants of `main` (lines 7 to 11) -/

/-- Line 7: `UINT64_C(4) << 30`. -/
def FOUR_GIB_IN_BYTES : Nat := shl64 4 30

/-- Line 8: `UINT64_C(2) << 20`. -/
def HUGE_2MIB_ALIGNMENT : Nat := shl64 2 20

/-- Line 9: `HUGE_2MIB_ALIGNMENT - 1`. -/
def HUGE_2MIB_MASK : Nat := sub64 HUGE_2MIB_ALIGNMENT 1

/-- Line 10: `UINT64_C(1) << 30`. -/
def HUGE_1GIB_ALIGNMENT : Nat := shl64 1 30

/-- Line 11: `HUGE_1GIB_ALIGNMENT - 1`. -/
def HUGE_1GIB_MASK : Nat := sub64 HUGE_1GIB_ALIGNMENT 1

/-! ## The alignment test (lines 15, 16 and 21) -/

/-- The C expression `((size_t)p & mask) == 0`; its type is `int` and its value
is `1` when the comparison holds and `0` otherwise. -/
def alignTest (p mask : Nat) : Int :=
  if size_t_of_ptr p &&& mask = 0 then 1 else 0

/-! ## `printf` -/

/-- An argument of `printf` after the format string. -/
inductive Arg where
  | ptr (a : Nat)
  | int (v : Int)
deriving DecidableEq, Repr

/-- Expansion of a format string.  The conversions the program uses are `%p`,
rendered by the platform's `fmtPtr`, and `%d`, the decimal rendering of an
`int`.  Any other conversion, a conversion applied to an argument of the wrong
type, and a wrong number of arguments have no defined result. -/
def printfChars (fmtPtr : Nat → String) : List Char → List Arg → Option (List Char)
  | [], [] => some []
  | [], _ :: _ => none
  | '%' :: 'p' :: rest, Arg.ptr a :: args =>
      (printfChars fmtPtr rest args).map (fun out => (fmtPtr a).data ++ out)
  | '%' :: 'd' :: rest, Arg.int v :: args =>
      (printfChars fmtPtr rest args).map (fun out => (toString v).data ++ out)
  | '%' :: _, _ => none
  | c :: rest, args => (printfChars fmtPtr rest args).map (fun out => c :: out)

/-- The text `printf(fmt, args...)` writes. -/
def printf (fmtPtr : Nat → String) (fmt : String) (args : List Arg) : Option String :=
  (printfChars fmtPtr fmt.data args).map String.mk

/-! ## Library calls and the state of a run -/

/-- A call of the C library made by the program, with its arguments and, for
the allocators, the address it returned. -/
inductive Event where
  | malloc (size ret : Nat)
  | aligned_alloc (alignment size ret : Nat)
  | free (ptr : Nat)
  | printf (fmt : String) (args : List Arg)
deriving DecidableEq, Repr

/-- What a run has done so far: its library calls, oldest first, and the
contents of standard output. -/
structure World where
  trace : List Event
  stdout : String
deriving DecidableEq, Repr

/-- The statement `r = malloc(size)` where the allocator answers `ret`. -/
def call_malloc (size ret : Nat) (w : World) : World :=
  { w with trace := w.trace ++ [Event.malloc size ret] }

/-- The statement `r = aligned_alloc(alignment, size)` where the allocator answers `ret`. -/
def call_aligned_alloc (alignment size ret : Nat) (w : World) : World :=
  { w with trace := w.trace ++ [Event.aligned_alloc alignment size ret] }

/-- The statement `free(ptr)`. -/
def call_free (ptr : Nat) (w : World) : World :=
  { w with trace := w.trace ++ [Event.free ptr] }

/-- The statement `printf(fmt, args...)`. -/
def call_printf (fmtPtr : Nat → String) (fmt : String) (args : List Arg) (w : World) :
    Option World :=
  (printf fmtPtr fmt args).map fun out =>
    { trace := w.trace ++ [Event.printf fmt args], stdout := w.stdout ++ out }

/-! ## `main` (lines 6 to 25) -/

/-- The function `main`.  `p` is the address `malloc` returns on line 13 and `q`
the address `aligned_alloc` returns on line 19 (`0` is the null pointer).  The
result is the final state and the exit code. -/
def main (fmtPtr : Nat → String) (p q : Nat) : Option (World × Int) := do
  let w0 : World := { trace := [], stdout := "" }
  let plain_malloc := p
  let w1 := call_malloc FOUR_GIB_IN_BYTES plain_malloc w0
  let w2 ← call_printf fmtPtr "malloc 4GiB = %p; 2MiB aligned? %d; 1GiB aligned? %d\n"
    [Arg.ptr plain_malloc,
     Arg.int (alignTest plain_malloc HUGE_2MIB_MASK),
     Arg.int (alignTest plain_malloc HUGE_1GIB_MASK)] w1
  let w3 := call_free plain_malloc w2
  let aligned := q
  let w4 := call_aligned_alloc HUGE_1GIB_ALIGNMENT FOUR_GIB_IN_BYTES aligned w3
  let w5 ← call_printf fmtPtr "aligned_alloc 4GiB = %p; 2MiB aligned? %d; 1GiB aligned? %d\n"
    [Arg.ptr aligned,
     Arg.int (alignTest aligned HUGE_2MIB_MASK),
     Arg.int (alignTest aligned HUGE_1GIB_MASK)] w4
  let w6 := call_free aligned w5
  return (w6, 0)

/-! ## Reading a trace -/

/-- The allocator calls of a trace, in order. -/
def allocEvents : List Event → List Event
  | [] => []
  | Event.printf _ _ :: rest => allocEvents rest
  | e :: rest => e :: allocEvents rest

/-- The `printf` calls of a trace, in order. -/
def printfEvents : List Event → List Event
  | [] => []
  | Event.printf fmt args :: rest => Event.printf fmt args :: printfEvents rest
  | _ :: rest => printfEvents rest

/-- The buffers that are live once the calls of a trace have run, newest first.
A successful allocation adds its address, a failed one (null) adds nothing, and
`free` removes the address it is given (`free` of null does nothing). -/
def live : List Event → List Nat → List Nat
  | [], heap => heap
  | Event.malloc _ ret :: rest, heap => live rest (if ret = 0 then heap else ret :: heap)
  | Event.aligned_alloc _ _ ret :: rest, heap =>
      live rest (if ret = 0 then heap else ret :: heap)
  | Event.free ptr :: rest, heap => live rest (heap.erase ptr)
  | Event.printf _ _ :: rest, heap => live rest heap

/-- An allocator trace in which every allocation is followed at once by the
`free` of the address it returned, and `free` occurs nowhere else. -/
def pairedAllocFree : List Event → Bool
  | [] => true
  | Event.malloc _ ret :: Event.free ptr :: rest => ret == ptr && pairedAllocFree rest
  | Event.aligned_alloc _ _ ret :: Event.free ptr :: rest => ret == ptr && pairedAllocFree rest
  | _ => false

/-- The `malloc` calls of a trace as pairs (size, returned address). -/
def mallocCalls : List Event → List (Nat × Nat)
  | [] => []
  | Event.malloc size ret :: rest => (size, ret) :: mallocCalls rest
  | _ :: rest => mallocCalls rest

/-- The `aligned_alloc` calls of a trace as triples (alignment, size, returned address). -/
def alignedAllocCalls : List Event → List (Nat × Nat × Nat)
  | [] => []
  | Event.aligned_alloc alignment size ret :: rest =>
      (alignment, size, ret) :: alignedAllocCalls rest
  | _ :: rest => alignedAllocCalls rest

/-! ## The specification's output template and a sample platform -/

/-- One output line as section 4.4 of the specification writes it:
`<name> 4GiB = <addr>; 2MiB aligned? <0|1>; 1GiB aligned? <0|1>` and a newline,
where `a` and `b` say whether the address is 2 MiB and 1 GiB aligned. -/
def specLine (name addr : String) (a b : Bool) : String :=
  name ++ " 4GiB = " ++ addr ++ "; 2MiB aligned? " ++ (if a then "1" else "0")
    ++ "; 1GiB aligned? " ++ (if b then "1" else "0") ++ "\n"

/-- A sample `%p` rendering (that of glibc): `(nil)` for the null pointer,
otherwise `0x` followed by the lowercase hexadecimal digits of the address. -/
def glibcPtr (a : Nat) : String :=
  if a = 0 then "(nil)" else "0x" ++ String.mk (Nat.toDigits 16 a)

/-! ## Auxiliary facts -/

theorem sub64_two_pow_one (k : Nat) (hk : k < 64) : sub64 (2 ^ k) 1 = 2 ^ k - 1 := by
  have hlt : 2 ^ k < 2 ^ 64 := Nat.pow_lt_pow_right (by norm_num) hk
  have hpos : 0 < 2 ^ k := Nat.pos_pow_of_pos k (by norm_num)
  unfold sub64 WORD
  generalize 2 ^ k = x at hlt hpos
  omega

theorem alignTest_two_pow (A k : Nat) (hk : k < 64) :
    alignTest A (sub64 (2 ^ k) 1) = if A % 2 ^ k = 0 then 1 else 0 := by
  unfold alignTest size_t_of_ptr WORD
  rw [sub64_two_pow_one k hk, Nat.and_pow_two_sub_one_eq_mod,
    Nat.mod_mod_of_dvd A (pow_dvd_pow 2 hk.le)]

theorem HUGE_2MIB_MASK_eq : HUGE_2MIB_MASK = sub64 (2 ^ 21) 1 := by decide

theorem HUGE_1GIB_MASK_eq : HUGE_1GIB_MASK = sub64 (2 ^ 30) 1 := by decide

theorem alignTest_2MiB (A : Nat) :
    alignTest A HUGE_2MIB_MASK = if A % 2 ^ 21 = 0 then 1 else 0 := by
  rw [HUGE_2MIB_MASK_eq, alignTest_two_pow A 21 (by norm_num)]

theorem alignTest_1GiB (A : Nat) :
    alignTest A HUGE_1GIB_MASK = if A % 2 ^ 30 = 0 then 1 else 0 := by
  rw [HUGE_1GIB_MASK_eq, alignTest_two_pow A 30 (by norm_num)]

theorem mod_two_pow_eq_zero_iff_testBit (A k : Nat) :
    A % 2 ^ k = 0 ↔ ∀ i, i < k → A.testBit i = false := by
  constructor
  · intro h i hi
    have hbit := Nat.testBit_mod_two_pow A k i
    rw [h] at hbit
    simpa [hi] using hbit.symm
  · intro h
    apply Nat.eq_of_testBit_eq
    intro i
    rw [Nat.testBit_mod_two_pow]
    by_cases hi : i < k
    · simp [hi, h i hi]
    · simp [hi]

theorem mod_2MiB_of_mod_1GiB (A : Nat) (h : A % 2 ^ 30 = 0) : A % 2 ^ 21 = 0 := by
  have h30 : (2 : Nat) ^ 30 = 2 ^ 21 * 512 := by norm_num
  rw [h30] at h
  omega

theorem toString_flag (c : Prop) [Decidable c] :
    toString (if c then (1 : Int) else 0) = if c then "1" else "0" := by
  split <;> decide

/-- The run of `main`, statement by statement. -/
theorem main_eq (fmtPtr : Nat → String) (p q : Nat) :
    main fmtPtr p q = some (
      { trace :=
          [Event.malloc FOUR_GIB_IN_BYTES p,
           Event.printf "malloc 4GiB = %p; 2MiB aligned? %d; 1GiB aligned? %d\n"
             [Arg.ptr p, Arg.int (alignTest p HUGE_2MIB_MASK),
              Arg.int (alignTest p HUGE_1GIB_MASK)],
           Event.free p,
           Event.aligned_alloc HUGE_1GIB_ALIGNMENT FOUR_GIB_IN_BYTES q,
           Event.printf "aligned_alloc 4GiB = %p; 2MiB aligned? %d; 1GiB aligned? %d\n"
             [Arg.ptr q, Arg.int (alignTest q HUGE_2MIB_MASK),
              Arg.int (alignTest q HUGE_1GIB_MASK)],
           Event.free q],
        stdout :=
          specLine "malloc" (fmtPtr p) (decide (p % 2 ^ 21 = 0)) (decide (p % 2 ^ 30 = 0))
            ++ specLine "aligned_alloc" (fmtPtr q) (decide (q % 2 ^ 21 = 0))
                (decide (q % 2 ^ 30 = 0)) }, 0) := by
  simp only [main, call_malloc, call_printf, call_free, call_aligned_alloc, printf,
    printfChars, alignTest_2MiB, alignTest_1GiB, toString_flag, specLine]
  simp
  apply String.ext
  simp [String.data_append]

/-! ## The alignment predicate -/

/-- C1: for a 64-bit address `A` (top bit set or not) and `P = 2^k` with
`k < 64`, the program's test `((size_t)A & (P - 1)) == 0` is true exactly when
`A mod P = 0`, which holds exactly when the low `k` bits of `A` are zero; the
conversion to `size_t` leaves the address unchanged.  The same holds for the
two masks `main` uses, `HUGE_2MIB_MASK` (`P = 2^21`) and `HUGE_1GIB_MASK`
(`P = 2^30`). -/
theorem alignTest_iff_mod_iff_low_bits (A k : Nat) (hA : A < 2 ^ 64) (hk : k < 64) :
    size_t_of_ptr A = A ∧
    (alignTest A (sub64 (2 ^ k) 1) = 1 ↔ A % 2 ^ k = 0) ∧
    (alignTest A (sub64 (2 ^ k) 1) = 0 ↔ A % 2 ^ k ≠ 0) ∧
    (A % 2 ^ k = 0 ↔ ∀ i, i < k → A.testBit i = false) ∧
    (alignTest A HUGE_2MIB_MASK = 1 ↔ A % 2 ^ 21 = 0) ∧
    (alignTest A HUGE_2MIB_MASK = 1 ↔ ∀ i, i < 21 → A.testBit i = false) ∧
    (alignTest A HUGE_1GIB_MASK = 1 ↔ A % 2 ^ 30 = 0) ∧
    (alignTest A HUGE_1GIB_MASK = 1 ↔ ∀ i, i < 30 → A.testBit i = false) := by
  have hflag : ∀ c : Prop, [Decidable c] →
      (((if c then (1 : Int) else 0) = 1 ↔ c) ∧ ((if c then (1 : Int) else 0) = 0 ↔ ¬ c)) := by
    intro c _
    by_cases hc : c <;> simp [hc]
  refine ⟨Nat.mod_eq_of_lt hA, ?_, ?_, mod_two_pow_eq_zero_iff_testBit A k, ?_, ?_, ?_, ?_⟩
  · rw [alignTest_two_pow A k hk]; exact (hflag _).1
  · rw [alignTest_two_pow A k hk]; exact (hflag _).2
  · rw [alignTest_2MiB]; exact (hflag _).1
  · rw [alignTest_2MiB, ← mod_two_pow_eq_zero_iff_testBit]; exact (hflag _).1
  · rw [alignTest_1GiB]; exact (hflag _).1
  · rw [alignTest_1GiB, ← mod_two_pow_eq_zero_iff_testBit]; exact (hflag _).1

/-- C1 at the address `2^63 + 2^30` (top bit set) with `k = 30`: the
hypotheses hold and the address passes the 1 GiB test. -/
theorem alignTest_iff_mod_iff_low_bits_witness :
    (2 ^ 63 + 2 ^ 30 < 2 ^ 64 ∧ 30 < 64) ∧
    alignTest (2 ^ 63 + 2 ^ 30) (sub64 (2 ^ 30) 1) = 1 ∧
    ∀ i, i < 30 → (2 ^ 63 + 2 ^ 30).testBit i = false :=
  ⟨⟨by decide, by decide⟩,
   (alignTest_iff_mod_iff_low_bits (2 ^ 63 + 2 ^ 30) 30 (by decide) (by decide)).2.1.mpr
     (by decide),
   (alignTest_iff_mod_iff_low_bits (2 ^ 63 + 2 ^ 30) 30 (by decide) (by decide)).2.2.2.1.mp
     (by decide)⟩

/-- C3: an address that passes the program's 1 GiB test also passes its 2 MiB
test, so no `printf` call of a run has a `1GiB aligned?` argument of 1 together
with a `2MiB aligned?` argument other than 1. -/
theorem one_gib_test_implies_two_mib_test (fmtPtr : Nat → String) (p q A : Nat)
    (h : alignTest A HUGE_1GIB_MASK = 1) :
    alignTest A HUGE_2MIB_MASK = 1 ∧
    ∃ w, main fmtPtr p q = some (w, 0) ∧
      ∀ fmt x a b, Event.printf fmt [Arg.ptr x, Arg.int a, Arg.int b] ∈ w.trace →
        b = 1 → a = 1 := by
  have himp : ∀ B : Nat, alignTest B HUGE_1GIB_MASK = 1 → alignTest B HUGE_2MIB_MASK = 1 := by
    intro B hB
    rw [alignTest_1GiB] at hB
    rw [alignTest_2MiB]
    by_cases hz : B % 2 ^ 30 = 0
    · rw [if_pos (mod_2MiB_of_mod_1GiB B hz)]
    · rw [if_neg hz] at hB
      exact absurd hB (by decide)
  refine ⟨himp A h, _, main_eq fmtPtr p q, ?_⟩
  intro fmt x a b hmem hb
  simp only [List.mem_cons, List.mem_singleton, Event.printf.injEq, List.cons.injEq,
    Arg.ptr.injEq, Arg.int.injEq, and_true, List.not_mem_nil, or_false, false_or,
    reduceCtorEq] at hmem
  rcases hmem with ⟨_, _, ha, hb'⟩ | ⟨_, _, ha, hb'⟩
  · rw [ha]; exact himp p (by rw [← hb', hb])
  · rw [ha]; exact himp q (by rw [← hb', hb])

/-- C3 at the address `0x40000000`, in the run where `malloc` returns
`0x7f0012345000` and `aligned_alloc` returns `0x40000000`. -/
theorem one_gib_test_implies_two_mib_test_witness :
    alignTest 0x40000000 HUGE_1GIB_MASK = 1 ∧ alignTest 0x40000000 HUGE_2MIB_MASK = 1 :=
  ⟨by decide,
   (one_gib_test_implies_two_mib_test glibcPtr 0x7f0012345000 0x40000000 0x40000000
     (by decide)).1⟩

/-! ## The output of `main` -/

/-- C2: when the address `q` returned by `aligned_alloc` is a non-null multiple
of `2^30`, the second `printf` call has both alignment arguments equal to 1 and
the second output line reads `2MiB aligned? 1; 1GiB aligned? 1`, whatever
address `p` `malloc` returned. -/
theorem aligned_line_fields_are_one (fmtPtr : Nat → String) (p q : Nat)
    (_hq0 : q ≠ 0) (hq : q % 2 ^ 30 = 0) :
    ∃ w, main fmtPtr p q = some (w, 0) ∧
      printfEvents w.trace =
        [Event.printf "malloc 4GiB = %p; 2MiB aligned? %d; 1GiB aligned? %d\n"
           [Arg.ptr p, Arg.int (alignTest p HUGE_2MIB_MASK),
            Arg.int (alignTest p HUGE_1GIB_MASK)],
         Event.printf "aligned_alloc 4GiB = %p; 2MiB aligned? %d; 1GiB aligned? %d\n"
           [Arg.ptr q, Arg.int 1, Arg.int 1]] ∧
      w.stdout =
        specLine "malloc" (fmtPtr p) (decide (p % 2 ^ 21 = 0)) (decide (p % 2 ^ 30 = 0))
          ++ ("aligned_alloc 4GiB = " ++ fmtPtr q ++ "; 2MiB aligned? 1; 1GiB aligned? 1\n") := by
  have h21 : q % 2 ^ 21 = 0 := mod_2MiB_of_mod_1GiB q hq
  have h2 : alignTest q HUGE_2MIB_MASK = 1 := by rw [alignTest_2MiB, if_pos h21]
  have h1 : alignTest q HUGE_1GIB_MASK = 1 := by rw [alignTest_1GiB, if_pos hq]
  refine ⟨_, main_eq fmtPtr p q, ?_, ?_⟩
  · simp only [printfEvents, h1, h2]
  · have hline : specLine "aligned_alloc" (fmtPtr q) (decide (q % 2 ^ 21 = 0))
        (decide (q % 2 ^ 30 = 0))
        = "aligned_alloc 4GiB = " ++ fmtPtr q ++ "; 2MiB aligned? 1; 1GiB aligned? 1\n" := by
      rw [decide_eq_true h21, decide_eq_true hq]
      apply String.ext
      simp [specLine, String.data_append]
    show specLine "malloc" _ _ _ ++ specLine "aligned_alloc" _ _ _ = _
    rw [hline]

/-- C2 in the run where `malloc` returns `0x7f0012345000` and `aligned_alloc`
returns `0x7f0040000000`, with glibc's pointer rendering. -/
theorem aligned_line_fields_are_one_witness :
    (0x7f0040000000 ≠ 0 ∧ 0x7f0040000000 % 2 ^ 30 = 0) ∧
    ∃ w, main glibcPtr 0x7f0012345000 0x7f0040000000 = some (w, 0) ∧
      w.stdout =
        "malloc 4GiB = 0x7f0012345000; 2MiB aligned? 0; 1GiB aligned? 0\n"
          ++ "aligned_alloc 4GiB = 0x7f0040000000; 2MiB aligned? 1; 1GiB aligned? 1\n" :=
  ⟨⟨by decide, by decide⟩,
   (aligned_line_fields_are_one glibcPtr 0x7f0012345000 0x7f0040000000
      (by decide) (by decide)).elim
     fun w hw => ⟨w, hw.1, hw.2.2.trans (by decide)⟩⟩

/-- C4: for all addresses `p` and `q` (null or not) `main` writes exactly two
lines to standard output, one per `printf` call and in this order: the `malloc`
line for `p` and the `aligned_alloc` line for `q`, each in the template of
section 4.4, where every field is the digit `1` when the address is a multiple
of `2^21` (respectively `2^30`) and `0` otherwise, which is the decimal
rendering of the corresponding alignment test. -/
theorem stdout_is_the_two_lines (fmtPtr : Nat → String) (p q : Nat) :
    ∃ w, main fmtPtr p q = some (w, 0) ∧
      w.stdout =
        ("malloc 4GiB = " ++ fmtPtr p
          ++ "; 2MiB aligned? " ++ (if p % 2 ^ 21 = 0 then "1" else "0")
          ++ "; 1GiB aligned? " ++ (if p % 2 ^ 30 = 0 then "1" else "0") ++ "\n")
        ++ ("aligned_alloc 4GiB = " ++ fmtPtr q
          ++ "; 2MiB aligned? " ++ (if q % 2 ^ 21 = 0 then "1" else "0")
          ++ "; 1GiB aligned? " ++ (if q % 2 ^ 30 = 0 then "1" else "0") ++ "\n") ∧
      (printfEvents w.trace).length = 2 ∧
      toString (alignTest p HUGE_2MIB_MASK) = (if p % 2 ^ 21 = 0 then "1" else "0") ∧
      toString (alignTest p HUGE_1GIB_MASK) = (if p % 2 ^ 30 = 0 then "1" else "0") ∧
      toString (alignTest q HUGE_2MIB_MASK) = (if q % 2 ^ 21 = 0 then "1" else "0") ∧
      toString (alignTest q HUGE_1GIB_MASK) = (if q % 2 ^ 30 = 0 then "1" else "0") := by
  refine ⟨_, main_eq fmtPtr p q, ?_, ?_, ?_, ?_, ?_, ?_⟩
  · simp only [specLine, decide_eq_true_eq]
    rfl
  · simp only [printfEvents, List.length_cons, List.length_nil]
  · rw [alignTest_2MiB, toString_flag]
  · rw [alignTest_1GiB, toString_flag]
  · rw [alignTest_2MiB, toString_flag]
  · rw [alignTest_1GiB, toString_flag]

/-! ## Failed allocations -/

/-- C5: the null address passes the alignment test for every `P` (so for every
power of two), in particular both tests of `main`.  A failed `malloc` therefore
prints `2MiB aligned? 1; 1GiB aligned? 1` on the first line and a failed
`aligned_alloc` prints the same on the second line, and these are the fields a
1 GiB-aligned address gets. -/
theorem null_address_passes_both_tests (fmtPtr : Nat → String) (p q P : Nat) :
    alignTest 0 (sub64 P 1) = 1 ∧
    alignTest 0 HUGE_2MIB_MASK = 1 ∧
    alignTest 0 HUGE_1GIB_MASK = 1 ∧
    (∃ w, main fmtPtr 0 q = some (w, 0) ∧
      w.stdout =
        ("malloc 4GiB = " ++ fmtPtr 0 ++ "; 2MiB aligned? 1; 1GiB aligned? 1\n")
          ++ specLine "aligned_alloc" (fmtPtr q) (decide (q % 2 ^ 21 = 0))
              (decide (q % 2 ^ 30 = 0))) ∧
    (∃ w, main fmtPtr p 0 = some (w, 0) ∧
      w.stdout =
        specLine "malloc" (fmtPtr p) (decide (p % 2 ^ 21 = 0)) (decide (p % 2 ^ 30 = 0))
          ++ ("aligned_alloc 4GiB = " ++ fmtPtr 0 ++ "; 2MiB aligned? 1; 1GiB aligned? 1\n")) ∧
    (q % 2 ^ 30 = 0 →
      alignTest q HUGE_2MIB_MASK = alignTest 0 HUGE_2MIB_MASK ∧
      alignTest q HUGE_1GIB_MASK = alignTest 0 HUGE_1GIB_MASK) := by
  have hnull : ∀ name : String, specLine name (fmtPtr 0) (decide (0 % 2 ^ 21 = 0))
      (decide (0 % 2 ^ 30 = 0))
      = name ++ " 4GiB = " ++ fmtPtr 0 ++ "; 2MiB aligned? 1; 1GiB aligned? 1\n" := by
    intro name
    apply String.ext
    simp [specLine, String.data_append]
  refine ⟨?_, by decide, by decide, ⟨_, main_eq fmtPtr 0 q, ?_⟩, ⟨_, main_eq fmtPtr p 0, ?_⟩, ?_⟩
  · simp [alignTest, size_t_of_ptr]
  · show specLine "malloc" _ _ _ ++ specLine "aligned_alloc" _ _ _ = _
    rw [hnull "malloc"]
    rfl
  · show specLine "malloc" _ _ _ ++ specLine "aligned_alloc" _ _ _ = _
    rw [hnull "aligned_alloc"]
    rfl
  · intro hq
    rw [alignTest_2MiB, alignTest_1GiB, if_pos hq, if_pos (mod_2MiB_of_mod_1GiB q hq)]
    exact ⟨by decide, by decide⟩

/-- C5 in the run where both allocations fail, with glibc's pointer rendering,
and at the 1 GiB-aligned address `0x40000000`. -/
theorem null_address_passes_both_tests_witness :
    (∃ w, main glibcPtr 0 0 = some (w, 0) ∧
      w.stdout =
        "malloc 4GiB = (nil); 2MiB aligned? 1; 1GiB aligned? 1\n"
          ++ "aligned_alloc 4GiB = (nil); 2MiB aligned? 1; 1GiB aligned? 1\n") ∧
    0x40000000 % 2 ^ 30 = 0 ∧
    alignTest 0x40000000 HUGE_2MIB_MASK = alignTest 0 HUGE_2MIB_MASK ∧
    alignTest 0x40000000 HUGE_1GIB_MASK = alignTest 0 HUGE_1GIB_MASK :=
  ⟨(null_address_passes_both_tests glibcPtr 0 0 (2 ^ 21)).2.2.2.1.elim
    fun w hw => ⟨w, hw.1, hw.2.trans (by decide)⟩,
   by decide,
   (null_address_passes_both_tests glibcPtr 0 0x40000000 (2 ^ 30)).2.2.2.2.2 (by decide)⟩

/-- C6: `main` returns exit code 0 for every pair of allocation results, null
or not; it always runs all six library calls, and both lines are written. -/
theorem main_exits_zero (fmtPtr : Nat → String) (p q : Nat) :
    ∃ w, main fmtPtr p q = some (w, 0) ∧
      w.trace.length = 6 ∧
      (printfEvents w.trace).length = 2 ∧
      w.stdout =
        specLine "malloc" (fmtPtr p) (decide (p % 2 ^ 21 = 0)) (decide (p % 2 ^ 30 = 0))
          ++ specLine "aligned_alloc" (fmtPtr q) (decide (q % 2 ^ 21 = 0))
              (decide (q % 2 ^ 30 = 0)) ∧
      (∃ w0, main fmtPtr 0 q = some (w0, 0)) ∧
      (∃ w0, main fmtPtr p 0 = some (w0, 0)) ∧
      (∃ w0, main fmtPtr 0 0 = some (w0, 0)) :=
  ⟨_, main_eq fmtPtr p q, rfl, rfl, rfl, ⟨_, main_eq fmtPtr 0 q⟩, ⟨_, main_eq fmtPtr p 0⟩,
    ⟨_, main_eq fmtPtr 0 0⟩⟩

/-! ## Constants and allocator arguments -/

/-- C7: with 64-bit shifts and a 64-bit `size_t` the constants are
`FOUR_GIB_IN_BYTES = 2^32`, `HUGE_2MIB_ALIGNMENT = 2^21` and
`HUGE_1GIB_ALIGNMENT = 2^30`, no shift or subtraction wraps, the masks are
`2^21 - 1` and `2^30 - 1`, and the four alignment tests of a run use exactly
these two masks. -/
theorem constants_have_specified_values (fmtPtr : Nat → String) (p q : Nat) :
    (FOUR_GIB_IN_BYTES = 2 ^ 32 ∧ 4 * 2 ^ 30 < WORD) ∧
    (HUGE_2MIB_ALIGNMENT = 2 ^ 21 ∧ 2 * 2 ^ 20 < WORD) ∧
    (HUGE_1GIB_ALIGNMENT = 2 ^ 30 ∧ 1 * 2 ^ 30 < WORD) ∧
    (HUGE_2MIB_MASK = 2 ^ 21 - 1 ∧ 1 ≤ HUGE_2MIB_ALIGNMENT) ∧
    (HUGE_1GIB_MASK = 2 ^ 30 - 1 ∧ 1 ≤ HUGE_1GIB_ALIGNMENT) ∧
    ∃ w, main fmtPtr p q = some (w, 0) ∧
      printfEvents w.trace =
        [Event.printf "malloc 4GiB = %p; 2MiB aligned? %d; 1GiB aligned? %d\n"
           [Arg.ptr p, Arg.int (alignTest p (2 ^ 21 - 1)), Arg.int (alignTest p (2 ^ 30 - 1))],
         Event.printf "aligned_alloc 4GiB = %p; 2MiB aligned? %d; 1GiB aligned? %d\n"
           [Arg.ptr q, Arg.int (alignTest q (2 ^ 21 - 1)),
            Arg.int (alignTest q (2 ^ 30 - 1))]] := by
  have h2 : HUGE_2MIB_MASK = 2 ^ 21 - 1 := by decide
  have h1 : HUGE_1GIB_MASK = 2 ^ 30 - 1 := by decide
  refine ⟨⟨by decide, by decide⟩, ⟨by decide, by decide⟩, ⟨by decide, by decide⟩,
    ⟨h2, by decide⟩, ⟨h1, by decide⟩, _, main_eq fmtPtr p q, ?_⟩
  simp only [printfEvents, h1, h2]

/-- C8: `malloc` is called once, with size `2^32`; `aligned_alloc` is called
once, with alignment `2^30` and size `2^32`; the size is 4 times the alignment,
with remainder 0. -/
theorem allocator_arguments (fmtPtr : Nat → String) (p q : Nat) :
    ∃ w, main fmtPtr p q = some (w, 0) ∧
      mallocCalls w.trace = [(2 ^ 32, p)] ∧
      alignedAllocCalls w.trace = [(2 ^ 30, 2 ^ 32, q)] ∧
      FOUR_GIB_IN_BYTES % HUGE_1GIB_ALIGNMENT = 0 ∧
      FOUR_GIB_IN_BYTES / HUGE_1GIB_ALIGNMENT = 4 ∧
      FOUR_GIB_IN_BYTES = 4 * HUGE_1GIB_ALIGNMENT := by
  have hs : FOUR_GIB_IN_BYTES = 2 ^ 32 := by decide
  have ha : HUGE_1GIB_ALIGNMENT = 2 ^ 30 := by decide
  refine ⟨_, main_eq fmtPtr p q, ?_, ?_, by decide, by decide, by decide⟩
  · simp only [mallocCalls, hs]
  · simp only [alignedAllocCalls, hs, ha]

/-! ## Buffer lifetimes -/

/-- C9: the library calls of `main` are `malloc(2^32) -> p`, `printf`, `free(p)`,
`aligned_alloc(2^30, 2^32) -> q`, `printf`, `free(q)`, so its allocator calls
are exactly `malloc`, `free(p)`, `aligned_alloc`, `free(q)`.  Each allocation is
followed at once by the `free` of the address it returned and `free` occurs
nowhere else; after every initial part of the run at most one buffer is live,
and none is live at the end. -/
theorem allocator_trace (fmtPtr : Nat → String) (p q : Nat) :
    ∃ w, main fmtPtr p q = some (w, 0) ∧
      allocEvents w.trace =
        [Event.malloc (2 ^ 32) p, Event.free p,
         Event.aligned_alloc (2 ^ 30) (2 ^ 32) q, Event.free q] ∧
      pairedAllocFree (allocEvents w.trace) = true ∧
      (∀ n, (live (w.trace.take n) []).length ≤ 1) ∧
      live w.trace [] = [] := by
  have hs : FOUR_GIB_IN_BYTES = 2 ^ 32 := by decide
  have ha : HUGE_1GIB_ALIGNMENT = 2 ^ 30 := by decide
  refine ⟨_, main_eq fmtPtr p q, ?_, ?_, ?_, ?_⟩
  · simp only [allocEvents, hs, ha]
  · simp [allocEvents, pairedAllocFree]
  · intro n
    rcases n with _ | _ | _ | _ | _ | _ | n <;>
      by_cases hp : p = 0 <;> by_cases hq : q = 0 <;> simp [live, hp, hq]
  · by_cases hp : p = 0 <;> by_cases hq : q = 0 <;> simp [live, hp, hq]

/-! ## Distinguishing alignments -/

/-- C10: for `k < j < 64` the address `2^k` passes the test for `P = 2^k` and
fails it for `P = 2^j`.  In particular `0x40000000` is aligned for `2^30` and
not for `2^31`, and `0x200000` passes the program's 2 MiB test and fails its
1 GiB test, so the 2 MiB test does not imply the 1 GiB test. -/
theorem power_of_two_address_alignment (k j : Nat) (hkj : k < j) (hj : j < 64) :
    alignTest (2 ^ k) (sub64 (2 ^ k) 1) = 1 ∧
    alignTest (2 ^ k) (sub64 (2 ^ j) 1) = 0 ∧
    alignTest 0x40000000 (sub64 (2 ^ 30) 1) = 1 ∧
    alignTest 0x40000000 (sub64 (2 ^ 31) 1) = 0 ∧
    alignTest 0x200000 HUGE_2MIB_MASK = 1 ∧
    alignTest 0x200000 HUGE_1GIB_MASK = 0 ∧
    ¬ (∀ A, alignTest A HUGE_2MIB_MASK = 1 → alignTest A HUGE_1GIB_MASK = 1) := by
  have hlt : 2 ^ k < 2 ^ j := Nat.pow_lt_pow_right (by norm_num) hkj
  have hpos : 0 < 2 ^ k := Nat.pos_pow_of_pos k (by norm_num)
  refine ⟨?_, ?_, by decide, by decide, by decide, by decide, ?_⟩
  · rw [alignTest_two_pow (2 ^ k) k (hkj.trans hj), if_pos (Nat.mod_self _)]
  · rw [alignTest_two_pow (2 ^ k) j hj, Nat.mod_eq_of_lt hlt, if_neg (Nat.ne_of_gt hpos)]
  · intro hall
    exact absurd (hall 0x200000 (by decide)) (by decide)

/-- C10 at `k = 21`, `j = 30`: the address `2^21` passes the test for `2^21`
and fails it for `2^30`. -/
theorem power_of_two_address_alignment_witness :
    (21 < 30 ∧ 30 < 64) ∧
    alignTest (2 ^ 21) (sub64 (2 ^ 21) 1) = 1 ∧
    alignTest (2 ^ 21) (sub64 (2 ^ 30) 1) = 0 :=
  ⟨⟨by decide, by decide⟩,
   (power_of_two_address_alignment 21 30 (by decide) (by decide)).1,
   (power_of_two_address_alignment 21 30 (by decide) (by decide)).2.1⟩

end AlignedAllocDemo
